import Mathlib

/-!
Verification development for the qrscan RabbitMQ pipeline
(src/qrscan_producer.py and src/rabbitmq_consumer.py).

Python strings are embedded as List Char; the observable behaviour of the
consumer (which external calls it makes, with which arguments, and its
acknowledgment decision) is embedded as a list of events, in the order the
corresponding Python statements execute. The results of the two external
calls (the HTTP GET and the subprocess run) are supplied by an environment
value so that theorems can quantify over every possible outcome of the
downstream actions; in the source both results are consumed only by print
statements inside try/except blocks, so they cannot influence control flow,
and the embedding reflects that.
-/

namespace QrScan

/-- Code points of the characters Python's str.strip() removes (the Unicode
whitespace class used by str.isspace). -/
def pyWhitespace : List Nat :=
  [9, 10, 11, 12, 13, 28, 29, 30, 31, 32, 133, 160, 5760,
   8192, 8193, 8194, 8195, 8196, 8197, 8198, 8199, 8200, 8201, 8202,
   8232, 8233, 8239, 8287, 12288]

/-- Whether a character is stripped by Python's str.strip(). -/
def isPySpace (c : Char) : Bool := pyWhitespace.contains c.toNat

/-- Python str.strip() with no argument: drop leading and trailing
whitespace. Models body.strip() at src/rabbitmq_consumer.py line 20. -/
def pyStrip (s : List Char) : List Char :=
  (((s.dropWhile isPySpace).reverse).dropWhile isPySpace).reverse

/-- Python str.split(sep) for a one-character separator sep: split at every
occurrence of sep; the empty string splits to a single empty field. Models
query_param.split(',') at src/rabbitmq_consumer.py line 32. -/
def pySplit (c : Char) : List Char → List (List Char)
  | [] => [[]]
  | x :: xs =>
    if x = c then [] :: pySplit c xs
    else
      match pySplit c xs with
      | [] => [[x]]
      | p :: ps => (x :: p) :: ps

/-- FLASK_URL_BASE at src/rabbitmq_consumer.py line 12. -/
def FLASK_URL_BASE : List Char := "http://localhost:5000/?query=".toList

/-- NODE_SCRIPT_PATH at src/rabbitmq_consumer.py line 15. -/
def NODE_SCRIPT_PATH : List Char := "/path/to/S500.js".toList

/-- RABBITMQ_QUEUE, the queue name both roles use (line 9 of the consumer,
line 5 of the producer). -/
def RABBITMQ_QUEUE : List Char := "qrscan".toList

/-- Result of the requests.get call at src/rabbitmq_consumer.py line 25:
either a response with an HTTP status code, or a raised exception
(network error, timeout, DNS failure, ...). -/
inductive HttpResult where
  | status (code : Int)
  | raise
deriving DecidableEq

/-- Result of the subprocess.run call at src/rabbitmq_consumer.py line 41:
either a completed process with an exit code, or a raised exception
(for example the node executable missing). -/
inductive ProcResult where
  | completed (exitCode : Int)
  | raise
deriving DecidableEq

/-- Outcomes of the two external calls made while processing one message.
In the source (lines 24-28 and 31-46) both are consumed only by print
statements inside try/except blocks. -/
structure Env where
  http : HttpResult
  proc : ProcResult
deriving DecidableEq

/-- Observable actions of the consumer, in program order: an HTTP GET
issued by requests.get (line 25), a subprocess invocation issued by
subprocess.run (line 41) with its full argument vector, and the channel
acknowledgment operations available on a pika channel: basic_ack as used
at line 50, and basic_nack (requeue true = requeue, false = dead-letter
path), which the source never calls. -/
inductive Event where
  | httpGet (url : List Char)
  | procRun (args : List (List Char))
  | ack (deliveryTag : Nat)
  | nack (deliveryTag : Nat) (requeue : Bool)
deriving DecidableEq

/-- True exactly on httpGet events. -/
def isHttp : Event → Bool
  | .httpGet _ => true
  | _ => false

/-- True exactly on procRun events. -/
def isProc : Event → Bool
  | .procRun _ => true
  | _ => false

/-- True exactly on ack events. -/
def isAck : Event → Bool
  | .ack _ => true
  | _ => false

/-- True exactly on nack events. -/
def isNack : Event → Bool
  | .nack _ _ => true
  | _ => false

/-- The argument vector of the subprocess.run call, node_cmd at
src/rabbitmq_consumer.py lines 33-39: node, the script path, --add, --db,
and the operation area parsed from the message. -/
def nodeArgs (op_area : List Char) : List (List Char) :=
  ["node".toList, NODE_SCRIPT_PATH, "--add".toList, "--db".toList, op_area]

/-- process_message at src/rabbitmq_consumer.py lines 17-46, as the list of
external calls it performs, in program order. query_param = body.strip()
(line 20); requests.get(FLASK_URL_BASE + query_param) is always attempted
(line 25), and an exception from it is caught and printed (lines 27-28);
then op_area, _ = query_param.split(',') (line 32) succeeds exactly when
the split yields two fields, in which case subprocess.run is invoked with
node_cmd (line 41); a ValueError from the unpacking, or an exception from
subprocess.run, is caught and printed (lines 45-46). The env argument
carries the results of the two calls; they are only printed, so the trace
does not depend on them. -/
def process_message (env : Env) (body : List Char) : List Event :=
  Event.httpGet (FLASK_URL_BASE ++ pyStrip body) ::
    (match pySplit ',' (pyStrip body) with
     | [op_area, _] => [Event.procRun (nodeArgs op_area)]
     | _ => [])

/-- callback at src/rabbitmq_consumer.py lines 48-50: run process_message
on the decoded body, then ch.basic_ack(delivery_tag=method.delivery_tag).
The body is the UTF-8 decoding of the delivered bytes (body.decode(),
line 49). -/
def callback (env : Env) (deliveryTag : Nat) (body : List Char) : List Event :=
  process_message env body ++ [Event.ack deliveryTag]

/-- The sequential consumption loop of main (src/rabbitmq_consumer.py
lines 52-58): pika's BlockingConnection with basic_consume runs callback
to completion on each delivered message, one at a time, in delivery order.
Delivery tags are consecutive. -/
def consumeLoop : Nat → List (Env × List Char) → List Event
  | _, [] => []
  | tag, (env, body) :: rest => callback env tag body ++ consumeLoop (tag + 1) rest

/-- The auto_ack argument of channel.basic_consume in main
(src/rabbitmq_consumer.py line 57): the call passes only queue and
on_message_callback, so pika's documented default auto_ack=False (manual
acknowledgment) applies. -/
def consumerAutoAck : Bool := false

/-- The decoding step embedded in process_message (strip at line 20, split
and two-field unpacking at line 32 of src/rabbitmq_consumer.py): the
message decodes to an (op_area, station) pair exactly when the stripped
payload splits on commas into exactly two fields; any other shape raises a
ValueError at the unpacking, which the source catches (malformed message).
Total by construction: it returns none instead of throwing. -/
def decode (body : List Char) : Option (List Char × List Char) :=
  match pySplit ',' (pyStrip body) with
  | [op_area, station] => some (op_area, station)
  | _ => none

/-- Modelled from the spec: encode(ScanEvent) produces area ++ comma ++
station (section 4.1; wire format of section 6). No encode function exists
under src: the producer publishes the wire string returned by the external
qr_scan.scan_qr_code collaborator verbatim (src/qrscan_producer.py
lines 17-19), so the producer-side encoding is taken from the spec's
words. -/
def encode (e : List Char × List Char) : List Char :=
  e.1 ++ ',' :: e.2

/-- Observable outcome of one send_to_rabbitmq call: how many broker
connection attempts it made, whether the message was handed to the broker,
and whether an exception escaped to the caller. -/
structure PublishOutcome where
  connectionAttempts : Nat
  published : Bool
  raisedToCaller : Bool
deriving DecidableEq

/-- send_to_rabbitmq at src/qrscan_producer.py lines 7-13: it opens one
fresh pika.BlockingConnection (line 8) with no try/except and no retry; if
that single connection attempt fails the exception propagates to the
caller, otherwise it declares the queue, publishes the body and closes the
connection. connOk i says whether the i-th connection attempt within one
call would succeed; the code only ever makes attempt 0. -/
def send_to_rabbitmq (connOk : Nat → Bool) : PublishOutcome :=
  if connOk 0 then ⟨1, true, false⟩ else ⟨1, false, true⟩

/-- Modelled from the spec: the Queue Client publish contract of section
4.2 — on connection loss, attempt one reconnect-and-retry before surfacing
PublishError::Unavailable. Stated only to compare with send_to_rabbitmq;
no such retry code exists in the repository. -/
def publish_spec (connOk : Nat → Bool) : PublishOutcome :=
  if connOk 0 then ⟨1, true, false⟩
  else if connOk 1 then ⟨2, true, false⟩
  else ⟨2, false, true⟩

/-- The ActionOutcome kinds of the spec (section 3). -/
inductive Outcome where
  | success
  | transientFailure
  | permanentFailure
deriving DecidableEq

/-- Follows the spec's words (section 4.3, notification action): absence of
a response is TransientFailure; 2xx/3xx is Success; 429 and 5xx are
TransientFailure; other 4xx are PermanentFailure. -/
def classifyHttp_spec : HttpResult → Outcome
  | .raise => .transientFailure
  | .status c =>
    if 200 ≤ c ∧ c ≤ 399 then .success
    else if c = 429 ∨ 500 ≤ c then .transientFailure
    else .permanentFailure

/-- Follows the spec's words (section 4.3, database-mutation action): exit
code 0 is Success, non-zero is TransientFailure (no documented permanent
exit-code convention exists); a raised exception around the invocation is a
failure expected to clear, TransientFailure. -/
def classifyProc_spec : ProcResult → Outcome
  | .raise => .transientFailure
  | .completed e => if e = 0 then .success else .transientFailure

/-- Follows the spec's words (section 4.3, combination policy): Success
only if both succeed; TransientFailure if either is transient;
PermanentFailure if either is permanent and neither transient. -/
def combine_spec (a b : Outcome) : Outcome :=
  if a = .transientFailure ∨ b = .transientFailure then .transientFailure
  else if a = .permanentFailure ∨ b = .permanentFailure then .permanentFailure
  else .success

/-! ## Library of facts about the embedded operations -/

theorem pySplit_nil (c : Char) : pySplit c [] = [[]] := rfl

theorem pySplit_cons_sep (c : Char) (xs : List Char) :
    pySplit c (c :: xs) = [] :: pySplit c xs := by
  simp [pySplit]

theorem pySplit_cons_head (c x : Char) (xs p : List Char) (ps : List (List Char))
    (hx : ¬ x = c) (hr : pySplit c xs = p :: ps) :
    pySplit c (x :: xs) = (x :: p) :: ps := by
  simp [pySplit, hx, hr]

theorem pySplit_ne_nil (c : Char) (s : List Char) : pySplit c s ≠ [] := by
  cases s with
  | nil => simp [pySplit]
  | cons x xs =>
    simp only [pySplit]
    split
    · simp
    · split
      · simp
      · simp

/-- Splitting a string that does not contain the separator yields that
string as the only field. -/
theorem pySplit_no_sep (c : Char) (s : List Char) (h : c ∉ s) : pySplit c s = [s] := by
  induction s with
  | nil => rfl
  | cons x xs ih =>
    have hx : ¬ x = c := fun hxc => h (hxc ▸ List.mem_cons_self x xs)
    have hxs : c ∉ xs := fun hm => h (List.mem_cons_of_mem _ hm)
    rw [pySplit_cons_head c x xs xs [] hx (ih hxs)]

/-- Splitting a ++ c :: b when a has no separator peels off a as the first
field. -/
theorem pySplit_append (c : Char) (a b : List Char) (ha : c ∉ a) :
    pySplit c (a ++ c :: b) = a :: pySplit c b := by
  induction a with
  | nil => simpa using pySplit_cons_sep c b
  | cons x xs ih =>
    have hx : ¬ x = c := fun hxc => ha (hxc ▸ List.mem_cons_self x xs)
    have hxs : c ∉ xs := fun hm => ha (List.mem_cons_of_mem _ hm)
    have := ih hxs
    rw [List.cons_append, pySplit_cons_head c x (xs ++ c :: b) xs (pySplit c b) hx this]

/-- A one-field split means the separator never occurred. -/
theorem pySplit_eq_single (c : Char) (s t : List Char)
    (h : pySplit c s = [t]) : s = t ∧ c ∉ t := by
  induction s generalizing t with
  | nil =>
    rw [pySplit_nil] at h
    simp only [List.cons.injEq, and_true] at h
    subst h
    simp
  | cons x xs ih =>
    by_cases hx : x = c
    · subst hx
      rw [pySplit_cons_sep] at h
      simp only [List.cons.injEq] at h
      exact absurd h.2 (pySplit_ne_nil x xs)
    · cases hr : pySplit c xs with
      | nil => exact absurd hr (pySplit_ne_nil c xs)
      | cons p ps =>
        rw [pySplit_cons_head c x xs p ps hx hr] at h
        simp only [List.cons.injEq] at h
        obtain ⟨h1, h2⟩ := h
        subst h2
        obtain ⟨hxs, hcp⟩ := ih p hr
        subst hxs
        subst h1
        refine ⟨rfl, ?_⟩
        intro hm
        rcases List.mem_cons.mp hm with h1 | h2
        · exact hx h1.symm
        · exact hcp h2

/-- A two-field split means the string was first field, separator, second
field, with no separator inside either field. -/
theorem pySplit_eq_pair (c : Char) (s a b : List Char)
    (h : pySplit c s = [a, b]) : s = a ++ c :: b ∧ c ∉ a ∧ c ∉ b := by
  induction s generalizing a with
  | nil =>
    rw [pySplit_nil] at h
    simp at h
  | cons x xs ih =>
    by_cases hx : x = c
    · subst hx
      rw [pySplit_cons_sep] at h
      simp only [List.cons.injEq] at h
      obtain ⟨h1, h2⟩ := h
      subst h1
      obtain ⟨hxs, hcb⟩ := pySplit_eq_single x xs b h2
      subst hxs
      simp [hcb]
    · cases hr : pySplit c xs with
      | nil => exact absurd hr (pySplit_ne_nil c xs)
      | cons p ps =>
        rw [pySplit_cons_head c x xs p ps hx hr] at h
        simp only [List.cons.injEq] at h
        obtain ⟨h1, h2⟩ := h
        subst h2
        obtain ⟨hxs, hcp, hcb⟩ := ih p hr
        subst hxs
        subst h1
        refine ⟨by simp, ?_, hcb⟩
        intro hm
        rcases List.mem_cons.mp hm with h1 | h2
        · exact hx h1.symm
        · exact hcp h2

/-- Stripping is the identity on a string whose first and last characters
are not whitespace. -/
theorem pyStrip_eq_self (x y : Char) (m : List Char)
    (hx : isPySpace x = false) (hy : isPySpace y = false) :
    pyStrip (x :: (m ++ [y])) = x :: (m ++ [y]) := by
  unfold pyStrip
  rw [List.dropWhile_cons, hx]
  simp only [Bool.false_eq_true, if_false]
  have h1 : (x :: (m ++ [y])).reverse = y :: (m.reverse ++ [x]) := by simp
  rw [h1, List.dropWhile_cons, hy]
  simp only [Bool.false_eq_true, if_false]
  rw [← h1, List.reverse_reverse]

/-- A successful decode exposes the two-field split of the stripped body. -/
theorem pySplit_of_decode (body a b : List Char)
    (h : decode body = some (a, b)) : pySplit ',' (pyStrip body) = [a, b] := by
  unfold decode at h
  split at h
  · rename_i op st heq
    obtain ⟨h1, h2⟩ := Prod.mk.injEq .. ▸ Option.some.inj h
    subst h1
    subst h2
    exact heq
  · exact absurd h (by simp)

/-- On a message that decodes, process_message issues the HTTP GET and then
the node invocation with the area field. -/
theorem process_message_of_decode (env : Env) (body a b : List Char)
    (h : decode body = some (a, b)) :
    process_message env body =
      [Event.httpGet (FLASK_URL_BASE ++ pyStrip body), Event.procRun (nodeArgs a)] := by
  have hs := pySplit_of_decode body a b h
  unfold process_message
  rw [hs]

/-- On a message that does not decode, process_message issues only the HTTP
GET: the two-field unpacking raises and the node invocation is skipped. -/
theorem process_message_of_malformed (env : Env) (body : List Char)
    (h : decode body = none) :
    process_message env body = [Event.httpGet (FLASK_URL_BASE ++ pyStrip body)] := by
  unfold process_message
  split
  · rename_i op st heq
    rw [decode, heq] at h
    exact absurd h (by simp)
  · rfl

/-- process_message never acknowledges and never rejects a message: only
the channel operations in callback do. -/
theorem process_message_no_ack_no_nack (env : Env) (body : List Char) :
    (process_message env body).countP isAck = 0 ∧
      (process_message env body).countP isNack = 0 := by
  unfold process_message
  split <;> simp [isAck, isNack, List.countP_cons]

/-- Each callback acknowledges exactly once and never rejects. -/
theorem callback_counts (env : Env) (tag : Nat) (body : List Char) :
    (callback env tag body).countP isAck = 1 ∧
      (callback env tag body).countP isNack = 0 := by
  obtain ⟨h1, h2⟩ := process_message_no_ack_no_nack env body
  unfold callback
  simp [List.countP_append, h1, h2, isAck, isNack, List.countP_cons]

/-- Across a whole consumption run, every delivery is acknowledged and none
is ever rejected or dead-lettered. -/
theorem consumeLoop_counts (msgs : List (Env × List Char)) (tag : Nat) :
    (consumeLoop tag msgs).countP isAck = msgs.length ∧
      (consumeLoop tag msgs).countP isNack = 0 := by
  induction msgs generalizing tag with
  | nil => simp [consumeLoop]
  | cons hd tl ih =>
    obtain ⟨e, b⟩ := hd
    obtain ⟨h1, h2⟩ := callback_counts e tag b
    obtain ⟨h3, h4⟩ := ih (tag + 1)
    simp [consumeLoop, List.countP_append, h1, h2, h3, h4]
    omega

/-! ## Claims -/

/-- C1, counterexample: with the HTTP action raising (a TransientFailure in
the spec's own taxonomy, as the first conjunct records) and the process
action succeeding, the claim requires the combined ProcessingResult to be
TransientFailure and the message to be retried; the code instead
acknowledges the delivery (one ack, no nack), so no retry happens. -/
theorem c1_counterexample :
    combine_spec (classifyHttp_spec HttpResult.raise)
        (classifyProc_spec (ProcResult.completed 0)) = Outcome.transientFailure ∧
    (callback ⟨HttpResult.raise, ProcResult.completed 0⟩ 7
        ("OP7,S500".toList)).countP isNack = 0 ∧
    (callback ⟨HttpResult.raise, ProcResult.completed 0⟩ 7
        ("OP7,S500".toList)).countP isAck = 1 :=
  ⟨rfl, rfl, rfl⟩

/-- C1, amended: the consumer computes no per-event ProcessingResult at
all. The outcomes of the HTTP action and the process action are caught and
discarded inside process_message, so the trace is identical for every
combination of outcomes, and the message is acknowledged exactly once and
never nacked (never retried, never dead-lettered), whatever the two
actions report. -/
theorem c1_ack_regardless_of_outcomes (env env' : Env) (tag : Nat) (body : List Char) :
    callback env tag body = callback env' tag body ∧
    (callback env tag body).countP isAck = 1 ∧
    (callback env tag body).countP isNack = 0 :=
  ⟨rfl, callback_counts env tag body⟩

/-- C2, counterexample: the payload OP7 has no delimiter, so decoding fails
(first conjunct); the claim requires the message to be dead-lettered with
neither downstream action invoked, but the code still issues the HTTP GET
with the malformed payload as the query and then acknowledges the message
(second conjunct: the full trace is the HTTP call followed by the ack). -/
theorem c2_counterexample :
    decode ("OP7".toList) = none ∧
    callback ⟨HttpResult.status 200, ProcResult.completed 0⟩ 1 ("OP7".toList) =
      [Event.httpGet ("http://localhost:5000/?query=OP7".toList), Event.ack 1] :=
  ⟨rfl, rfl⟩

/-- C2, amended: for every malformed payload the process invocation is
skipped (the two-field unpacking of split raises and is caught), but the
HTTP notification is still performed with the stripped malformed payload
appended to the base URL, and the message is then acknowledged rather than
dead-lettered. -/
theorem c2_malformed_http_still_called_and_acked (env : Env) (tag : Nat)
    (body : List Char) (h : decode body = none) :
    callback env tag body =
      [Event.httpGet (FLASK_URL_BASE ++ pyStrip body), Event.ack tag] := by
  rw [callback, process_message_of_malformed env body h]
  rfl

/-- Witness for the amended C2 at the concrete malformed payload OP7. -/
theorem c2_witness :
    decode ("OP7".toList) = none ∧
    callback ⟨HttpResult.status 200, ProcResult.completed 0⟩ 2 ("OP7".toList) =
      [Event.httpGet (FLASK_URL_BASE ++ pyStrip ("OP7".toList)), Event.ack 2] :=
  ⟨rfl, c2_malformed_http_still_called_and_acked
    ⟨HttpResult.status 200, ProcResult.completed 0⟩ 2 ("OP7".toList) rfl⟩

/-- C3, counterexample: delivering the well-formed event OP7,S500 twice
results in two process invocations and two HTTP calls, not the exactly one
of each that the claim requires, and both deliveries are separately
acknowledged. -/
theorem c3_counterexample :
    (consumeLoop 1 [(⟨HttpResult.status 200, ProcResult.completed 0⟩, "OP7,S500".toList),
        (⟨HttpResult.status 200, ProcResult.completed 0⟩, "OP7,S500".toList)]).countP isProc = 2 ∧
    (consumeLoop 1 [(⟨HttpResult.status 200, ProcResult.completed 0⟩, "OP7,S500".toList),
        (⟨HttpResult.status 200, ProcResult.completed 0⟩, "OP7,S500".toList)]).countP isHttp = 2 :=
  ⟨rfl, rfl⟩

/-- C3, amended: no idempotency guard exists. Delivering the same
well-formed event twice performs the external process action twice and the
HTTP call twice, and each delivery is acknowledged; the second delivery is
re-executed in full, not suppressed. -/
theorem c3_duplicate_delivery_double_executes (env1 env2 : Env)
    (body a b : List Char) (h : decode body = some (a, b)) :
    (consumeLoop 1 [(env1, body), (env2, body)]).countP isProc = 2 ∧
    (consumeLoop 1 [(env1, body), (env2, body)]).countP isHttp = 2 ∧
    (consumeLoop 1 [(env1, body), (env2, body)]).countP isAck = 2 := by
  have h1 := process_message_of_decode env1 body a b h
  have h2 := process_message_of_decode env2 body a b h
  simp [consumeLoop, callback, h1, h2, List.countP_append, List.countP_cons,
    isProc, isHttp, isAck]

/-- Witness for the amended C3 at the concrete event OP7,S500 delivered
twice. -/
theorem c3_witness :
    decode ("OP7,S500".toList) = some ("OP7".toList, "S500".toList) ∧
    (consumeLoop 1 [(⟨HttpResult.status 500, ProcResult.raise⟩, "OP7,S500".toList),
        (⟨HttpResult.status 200, ProcResult.completed 0⟩, "OP7,S500".toList)]).countP isProc = 2 ∧
    (consumeLoop 1 [(⟨HttpResult.status 500, ProcResult.raise⟩, "OP7,S500".toList),
        (⟨HttpResult.status 200, ProcResult.completed 0⟩, "OP7,S500".toList)]).countP isHttp = 2 ∧
    (consumeLoop 1 [(⟨HttpResult.status 500, ProcResult.raise⟩, "OP7,S500".toList),
        (⟨HttpResult.status 200, ProcResult.completed 0⟩, "OP7,S500".toList)]).countP isAck = 2 :=
  ⟨rfl, c3_duplicate_delivery_double_executes
    ⟨HttpResult.status 500, ProcResult.raise⟩
    ⟨HttpResult.status 200, ProcResult.completed 0⟩
    ("OP7,S500".toList) ("OP7".toList) ("S500".toList) rfl⟩

/-- C4, counterexample: both downstream actions report TransientFailure in
the spec's taxonomy (HTTP 503 and exit code 1, first two conjuncts), so
the claim requires the message to be requeued up to N times and then
dead-lettered; the code instead acknowledges it on the first delivery:
the consumption run performs no nack at all (so no requeue and no
dead-letter routing) and one ack. -/
theorem c4_counterexample :
    classifyHttp_spec (HttpResult.status 503) = Outcome.transientFailure ∧
    classifyProc_spec (ProcResult.completed 1) = Outcome.transientFailure ∧
    (consumeLoop 1 [(⟨HttpResult.status 503, ProcResult.completed 1⟩,
        "OP7,S500".toList)]).countP isNack = 0 ∧
    (consumeLoop 1 [(⟨HttpResult.status 503, ProcResult.completed 1⟩,
        "OP7,S500".toList)]).countP isAck = 1 :=
  ⟨rfl, rfl, rfl, rfl⟩

/-- C4, amended: there is no retry machinery and no retry bound. A message
whose downstream actions always fail is acknowledged on its first delivery
like any other: in a run of n deliveries every delivery is acked and none
is ever nacked, so nothing is ever requeued or dead-lettered (the message
is redelivered zero times because the ack removes it from the queue). -/
theorem c4_failing_message_acked_never_requeued (n : Nat) (env : Env) (body : List Char) :
    (consumeLoop 1 (List.replicate n (env, body))).countP isAck = n ∧
    (consumeLoop 1 (List.replicate n (env, body))).countP isNack = 0 := by
  obtain ⟨h1, h2⟩ := consumeLoop_counts (List.replicate n (env, body)) 1
  rw [List.length_replicate] at h1
  exact ⟨h1, h2⟩

/-- C5: the consumer subscribes with manual acknowledgment (basic_consume
is called without auto_ack, so pika's default False applies), and the
acknowledgment of a message comes only after both downstream calls of its
processing have returned: the trace of a consumption run is the message's
two-action processing, then its ack, then the events of the remaining
messages, and the processing itself contains no ack. -/
theorem c5_manual_ack_after_both_actions (env : Env) (tag : Nat)
    (body : List Char) (rest : List (Env × List Char)) :
    consumerAutoAck = false ∧
    consumeLoop tag ((env, body) :: rest) =
      process_message env body ++ Event.ack tag :: consumeLoop (tag + 1) rest ∧
    (process_message env body).countP isAck = 0 := by
  refine ⟨rfl, ?_, (process_message_no_ack_no_nack env body).1⟩
  simp [consumeLoop, callback]

/-- C6, counterexample: decoding does not yield only events with two
non-empty fields, and it does not split on the first delimiter only: the
payload with a trailing comma decodes to an event whose station field is
empty, and the payload a,b,c (which a first-delimiter-only split would
accept as the event (a, b,c)) is rejected because the code splits at every
comma and the two-field unpacking fails. -/
theorem c6_counterexample :
    decode ("OP7,".toList) = some ("OP7".toList, ([] : List Char)) ∧
    decode ("a,b,c".toList) = none :=
  ⟨rfl, rfl⟩

/-- C6, amended: decoding is total — it never throws, returning none where
the Python raises-and-catches — and it strips the whole payload and splits
at every comma, succeeding exactly when the stripped payload consists of a
first field, one comma, and a second field, neither field containing a
comma; the fields may be empty. -/
theorem c6_decode_total_characterization (s a b : List Char) :
    decode s = some (a, b) ↔
      (pyStrip s = a ++ ',' :: b ∧ ',' ∉ a ∧ ',' ∉ b) := by
  constructor
  · intro h
    exact pySplit_eq_pair ',' (pyStrip s) a b (pySplit_of_decode s a b h)
  · rintro ⟨h1, h2, h3⟩
    unfold decode
    rw [h1, pySplit_append ',' a b h2, pySplit_no_sep ',' b h3]

/-- C7, counterexample: the area field (space)a is non-empty and contains
no delimiter, yet decoding its encoding with station b yields the event
(a, b) with the leading space stripped, which differs from the original
area (the second conjunct records that the two area strings are not
equal), so the round-trip law as stated fails. -/
theorem c7_counterexample :
    decode (encode (" a".toList, "b".toList)) = some ("a".toList, "b".toList) ∧
    decide ((" a".toList : List Char) = "a".toList) = false :=
  ⟨rfl, rfl⟩

/-- C7, amended: the round-trip law holds for every area and station that
are non-empty, contain no delimiter, and additionally have no leading
whitespace on the area and no trailing whitespace on the station (the
strip in the decoder removes such padding, which is what the
counterexample exploits): decoding the encoding of such an event yields
the event again. -/
theorem c7_round_trip (a0 b9 : Char) (arest binit : List Char)
    (ha : isPySpace a0 = false) (hb : isPySpace b9 = false)
    (hA : ',' ∉ a0 :: arest) (hB : ',' ∉ binit ++ [b9]) :
    decode (encode (a0 :: arest, binit ++ [b9])) =
      some (a0 :: arest, binit ++ [b9]) := by
  have hstrip : pyStrip (encode (a0 :: arest, binit ++ [b9])) =
      encode (a0 :: arest, binit ++ [b9]) := by
    have henc : encode (a0 :: arest, binit ++ [b9]) =
        a0 :: ((arest ++ ',' :: binit) ++ [b9]) := by
      simp [encode]
    rw [henc]
    exact pyStrip_eq_self a0 b9 (arest ++ ',' :: binit) ha hb
  have hsplit : pySplit ',' (encode (a0 :: arest, binit ++ [b9])) =
      [a0 :: arest, binit ++ [b9]] := by
    show pySplit ',' ((a0 :: arest) ++ ',' :: (binit ++ [b9])) = _
    rw [pySplit_append ',' (a0 :: arest) (binit ++ [b9]) hA,
      pySplit_no_sep ',' (binit ++ [b9]) hB]
  unfold decode
  rw [hstrip, hsplit]

/-- Witness for the amended C7 at the concrete event (OP7, S500). -/
theorem c7_witness :
    isPySpace 'O' = false ∧ isPySpace '0' = false ∧
    (',' ∉ 'O' :: "P7".toList) ∧ (',' ∉ "S50".toList ++ ['0']) ∧
    decode (encode ('O' :: "P7".toList, "S50".toList ++ ['0'])) =
      some ('O' :: "P7".toList, "S50".toList ++ ['0']) :=
  ⟨by decide, by decide, by decide, by decide,
    c7_round_trip 'O' '0' "P7".toList "S50".toList
      (by decide) (by decide) (by decide) (by decide)⟩

/-- C8, counterexample: in an environment where the first connection
attempt fails and a second attempt would succeed, send_to_rabbitmq makes
only the one attempt and raises to the caller without publishing, while
the claimed contract (one reconnect-and-retry, second definition) would
make two attempts and publish successfully. -/
theorem c8_counterexample :
    send_to_rabbitmq (fun i => i == 1) = PublishOutcome.mk 1 false true ∧
    publish_spec (fun i => i == 1) = PublishOutcome.mk 2 true false :=
  ⟨rfl, rfl⟩

/-- C8, amended: send_to_rabbitmq opens one fresh connection per call (so
repeated calls are independent and safe), but it performs no
reconnect-and-retry: every call makes exactly one connection attempt,
publishes exactly when that attempt succeeds, and otherwise lets the
connection error propagate to the caller. -/
theorem c8_one_attempt_no_retry (connOk : Nat → Bool) :
    (send_to_rabbitmq connOk).connectionAttempts = 1 ∧
    (send_to_rabbitmq connOk).published = connOk 0 ∧
    (send_to_rabbitmq connOk).raisedToCaller = !connOk 0 := by
  cases h : connOk 0 <;> simp [send_to_rabbitmq, h]

/-- C9: for every message that decodes to an event (area, station), the
external process is invoked exactly once, with exactly the argument vector
node, NODE_SCRIPT_PATH, --add, --db, area; the station field does not
appear in and does not influence the invocation (the right-hand side
mentions only the area). -/
theorem c9_node_invoked_with_add_db_area (env : Env) (a b body : List Char)
    (h : decode body = some (a, b)) :
    (process_message env body).filter isProc =
      [Event.procRun ["node".toList, NODE_SCRIPT_PATH, "--add".toList,
        "--db".toList, a]] := by
  rw [process_message_of_decode env body a b h]
  rfl

/-- Witness for C9 at the concrete event (OP7, S500): the invocation
carries OP7 and not S500. -/
theorem c9_witness :
    decode ("OP7,S500".toList) = some ("OP7".toList, "S500".toList) ∧
    (process_message ⟨HttpResult.status 200, ProcResult.completed 0⟩
        ("OP7,S500".toList)).filter isProc =
      [Event.procRun ["node".toList, NODE_SCRIPT_PATH, "--add".toList,
        "--db".toList, "OP7".toList]] :=
  ⟨rfl, c9_node_invoked_with_add_db_area
    ⟨HttpResult.status 200, ProcResult.completed 0⟩
    ("OP7".toList) ("S500".toList) ("OP7,S500".toList) rfl⟩

/-- C10: whatever the two downstream calls do — success, failure status, or
raised exception, all of which are caught inside process_message — the
callback acknowledges the message exactly once, and the ack is the last
event of the delivery, after all processing. -/
theorem c10_ack_exactly_once_always (env : Env) (tag : Nat) (body : List Char) :
    (callback env tag body).countP isAck = 1 ∧
    (callback env tag body).getLast? = some (Event.ack tag) := by
  refine ⟨(callback_counts env tag body).1, ?_⟩
  show (process_message env body ++ [Event.ack tag]).getLast? = some (Event.ack tag)
  simp

end QrScan
